import Mathlib

/-!
Verification of the "Hacker Stories" tutorial application (`src/App.js` and
its earlier snapshots).  The development shallowly embeds the story data
model, the two reducer snapshots (the list-state reducer with
`SET_STORIES` / `REMOVE_STORY`, and the final complex-state reducer with
`STORIES_FETCH_INIT` / `STORIES_FETCH_SUCCESS` / `STORIES_FETCH_FAILURE` /
`REMOVE_STORY`), the client-side title filter `searchedStories`, and the
rehydration expression of the `useStorageState` hook.  A reducer that
`throw`s is modelled as returning `Except.error ()`.
-/

/-- A story record, as in `initialStories` in `src/App.js` (lines 3-20):
`{title, url, author, num_comments, points, objectID}`. -/
structure Story where
  title : String
  url : String
  author : String
  num_comments : Nat
  points : Nat
  objectID : Nat
  deriving Repr, DecidableEq

/-- The first seed story (`objectID 0`, title `"React"`) of `initialStories`. -/
def reactStory : Story :=
  { title := "React"
    url := "https://reactjs.org/"
    author := "Jordan Walke"
    num_comments := 3
    points := 4
    objectID := 0 }

/-- The second seed story (`objectID 1`, title `"Redux"`) of `initialStories`. -/
def reduxStory : Story :=
  { title := "Redux"
    url := "https://redux.js.org/"
    author := "Dan Abramov, Andrew Clark"
    num_comments := 2
    points := 5
    objectID := 1 }

/-- The two-element seed list `initialStories` of `src/App.js` lines 3-20
(the records are written inline there; here they are the two named
records above). -/
def initialStories : List Story := [reactStory, reduxStory]

/-- The complex stories state of the final snapshot
(`src/App.js` lines 415-419): `{data, isLoading, isError}`. -/
structure StoriesState where
  data : List Story
  isLoading : Bool
  isError : Bool
  deriving Repr, DecidableEq

/-- The initial state passed to `useReducer` in the final snapshot
(`src/App.js` lines 415-419): empty data, no loading, no error. -/
def initialStoriesState : StoriesState :=
  { data := [], isLoading := false, isError := false }

/-- Actions dispatched to the final snapshot's `storiesReducer`.  The four
recognized constructors correspond one-to-one to the four `action.type`
strings of the `switch` in `src/App.js` lines 345-388, each carrying the
payload shape the application dispatches with it (`SUCCESS` a story list,
`REMOVE_STORY` a story item, the others none).  `unknownAction ty` stands
for an action whose `type` string `ty` is none of the four recognized
ones, i.e. an action handled by the `default` branch. -/
inductive StoriesAction where
  | storiesFetchInit
  | storiesFetchSuccess (payload : List Story)
  | storiesFetchFailure
  | removeStory (payload : Story)
  | unknownAction (ty : String)
  deriving Repr, DecidableEq

/-- The final snapshot's `storiesReducer` (`src/App.js` lines 342-389),
branch for branch:
* `STORIES_FETCH_INIT` returns `{...state, isLoading: true, isError: false}`;
* `STORIES_FETCH_SUCCESS` returns
  `{...state, isLoading: false, isError: false, data: action.payload}`;
* `STORIES_FETCH_FAILURE` returns `{...state, isLoading: false, isError: true}`;
* `REMOVE_STORY` returns `{...state, data: state.data.filter(story =>
  action.payload.objectID !== story.objectID)}`;
* the `default` branch does `throw new Error()`, modelled as `Except.error ()`. -/
def storiesReducer (state : StoriesState) : StoriesAction → Except Unit StoriesState
  | .storiesFetchInit =>
      .ok { state with isLoading := true, isError := false }
  | .storiesFetchSuccess payload =>
      .ok { state with isLoading := false, isError := false, data := payload }
  | .storiesFetchFailure =>
      .ok { state with isLoading := false, isError := true }
  | .removeStory payload =>
      .ok { state with
            data := state.data.filter
              (fun story => payload.objectID != story.objectID) }
  | .unknownAction _ => .error ()

/-- Dispatching a list of actions in order, starting from a given state;
an error (thrown by the reducer) aborts the run.  This models the state
evolution of the `useReducer` container over a session. -/
def runActions (state : StoriesState) : List StoriesAction → Except Unit StoriesState
  | [] => .ok state
  | a :: rest =>
      match storiesReducer state a with
      | .ok s => runActions s rest
      | .error e => .error e

/-- An action is payload-sound when any fetch-success payload it carries has
pairwise distinct `objectID`s (the spec's data-model assumption that the
identifier is unique within a result set). -/
def goodPayloads : StoriesAction → Bool
  | .storiesFetchSuccess payload => (payload.map Story.objectID)
      |>.Nodup |> decide
  | _ => true

namespace V1

/-- Actions of the earlier list-state reducer snapshot
(`src/App.js` lines 68-85): `SET_STORIES` carries a story list,
`REMOVE_STORY` a story item, and `unknownAction ty` stands for any other
`action.type` string, handled by the `default` branch. -/
inductive StoriesAction where
  | setStories (payload : List Story)
  | removeStory (payload : Story)
  | unknownAction (ty : String)
  deriving Repr, DecidableEq

/-- The earlier snapshot's `storiesReducer` (`src/App.js` lines 68-85),
where the state is just the list of stories:
* `SET_STORIES` returns `action.payload`;
* `REMOVE_STORY` returns `state.filter(story =>
  action.payload.objectID !== story.objectID)`;
* the `default` branch does `throw new Error()`, modelled as `Except.error ()`. -/
def storiesReducer (state : List Story) : StoriesAction → Except Unit (List Story)
  | .setStories payload => .ok payload
  | .removeStory payload =>
      .ok (state.filter (fun story => payload.objectID != story.objectID))
  | .unknownAction _ => .error ()

end V1

/-- Character-list prefix test used to implement the substring test below. -/
def matchesAt : List Char → List Char → Bool
  | [], _ => true
  | _ :: _, [] => false
  | a :: as, b :: bs => (a == b) && matchesAt as bs

/-- `includesChars needle hay` scans `hay` for an occurrence of `needle`. -/
def includesChars (needle : List Char) : List Char → Bool
  | [] => needle.isEmpty
  | c :: rest => matchesAt needle (c :: rest) || includesChars needle rest

/-- JavaScript's `String.prototype.includes`: substring containment. -/
def String.includes (s pattern : String) : Bool :=
  includesChars pattern.data s.data

/-- JavaScript's `String.prototype.toLowerCase` (the titles and search
terms in this repository are ASCII, where `Char.toLower` agrees with it). -/
def toLowerCase (s : String) : String :=
  String.mk (s.data.map Char.toLower)

/-- The client-side filter `searchedStories` (`src/App.js` lines 164-170
and `src/unnamed/part_000` lines 64-70):
`stories.filter(story =>
  story.title.toLowerCase().includes(searchTerm.toLowerCase()))`. -/
def searchedStories (stories : List Story) (searchTerm : String) : List Story :=
  stories.filter (fun story =>
    (toLowerCase story.title).includes (toLowerCase searchTerm))

/-- Two strings are case variants when they agree letter for letter up to
letter case, i.e. lowering both gives the same string. -/
def caseVariant (s t : String) : Prop :=
  toLowerCase s = toLowerCase t

/-- The rehydration expression of `useStorageState`
(`src/App.js` lines 309-311 and 41-43):
`localStorage.getItem(key) || initialState`.  `getItem` yields `null`
(`none`) or the stored string; JavaScript's `||` takes the right operand
exactly when the left is falsy, and the falsy strings are just `""`. -/
def useStorageStateInit (stored : Option String) (initialState : String) : String :=
  match stored with
  | none => initialState
  | some s => if s = "" then initialState else s

/-- Stories whose `objectID`s collide, and a third story with a fresh
`objectID`, used to exercise a fetch-success payload that is not
duplicate-free. -/
def storyDupA : Story :=
  { title := "Dup A", url := "u", author := "a", num_comments := 0,
    points := 0, objectID := 5 }

/-- A second story carrying the same `objectID` as `storyDupA`. -/
def storyDupB : Story :=
  { title := "Dup B", url := "u", author := "a", num_comments := 0,
    points := 0, objectID := 5 }

/-- A story whose `objectID` differs from the colliding pair. -/
def storyOther : Story :=
  { title := "Other", url := "u", author := "a", num_comments := 0,
    points := 0, objectID := 7 }

/-- Filtering twice with the same predicate is the same as filtering once. -/
lemma filter_self_filter {α : Type} (p : α → Bool) (l : List α) :
    (l.filter p).filter p = l.filter p := by
  induction l with
  | nil => rfl
  | cons a t ih =>
      by_cases h : p a = true
      · simp [List.filter_cons, h, ih]
      · simp [List.filter_cons, h, ih]

/-- Filtering by a predicate preserves distinctness of the `objectID`s. -/
lemma keysNodup_filter (p : Story → Bool) (l : List Story)
    (h : (l.map Story.objectID).Nodup) :
    ((l.filter p).map Story.objectID).Nodup :=
  h.sublist ((List.filter_sublist l).map Story.objectID)

/-- A payload-sound reducer step preserves distinctness of the `objectID`s
in `data`. -/
lemma storiesReducer_preserves_keysNodup (s : StoriesState) (a : StoriesAction)
    (s' : StoriesState) (hg : goodPayloads a = true)
    (hred : storiesReducer s a = .ok s')
    (h : (s.data.map Story.objectID).Nodup) :
    (s'.data.map Story.objectID).Nodup := by
  cases a with
  | storiesFetchInit =>
      simp only [storiesReducer, Except.ok.injEq] at hred
      subst hred; exact h
  | storiesFetchSuccess payload =>
      simp only [storiesReducer, Except.ok.injEq] at hred
      subst hred
      simpa [goodPayloads] using hg
  | storiesFetchFailure =>
      simp only [storiesReducer, Except.ok.injEq] at hred
      subst hred; exact h
  | removeStory payload =>
      simp only [storiesReducer, Except.ok.injEq] at hred
      subst hred
      exact keysNodup_filter _ _ h
  | unknownAction ty =>
      simp [storiesReducer] at hred

/-- Running payload-sound actions preserves distinctness of the `objectID`s
in `data`. -/
lemma runActions_keysNodup (acts : List StoriesAction) :
    ∀ s₀ s : StoriesState, (∀ a ∈ acts, goodPayloads a = true) →
      runActions s₀ acts = .ok s →
      (s₀.data.map Story.objectID).Nodup →
      (s.data.map Story.objectID).Nodup := by
  induction acts with
  | nil =>
      intro s₀ s _ hrun h
      simp only [runActions, Except.ok.injEq] at hrun
      subst hrun; exact h
  | cons a rest ih =>
      intro s₀ s hg hrun h
      simp only [runActions] at hrun
      cases hred : storiesReducer s₀ a with
      | ok m =>
          rw [hred] at hrun
          exact ih m s (fun x hx => hg x (List.mem_cons_of_mem a hx)) hrun
            (storiesReducer_preserves_keysNodup s₀ a m
              (hg a (List.mem_cons_self a rest)) hred h)
      | error e => rw [hred] at hrun; exact absurd hrun (by simp)

/-- Splitting a run over an append of action lists. -/
lemma runActions_append (acts₁ acts₂ : List StoriesAction) :
    ∀ s₀ s : StoriesState, runActions s₀ (acts₁ ++ acts₂) = .ok s →
      ∃ m, runActions s₀ acts₁ = .ok m ∧ runActions m acts₂ = .ok s := by
  induction acts₁ with
  | nil =>
      intro s₀ s hrun
      exact ⟨s₀, rfl, hrun⟩
  | cons a rest ih =>
      intro s₀ s hrun
      simp only [List.cons_append, runActions] at hrun ⊢
      cases hred : storiesReducer s₀ a with
      | ok m =>
          rw [hred] at hrun
          exact ih m s hrun
      | error e => rw [hred] at hrun; exact absurd hrun (by simp)

/-- C1: for every prior state and every payload list, the stories reducer
applied to a fetch-success action returns a state with `isLoading = false`,
`isError = false`, and `data` equal to the payload exactly (wholesale
replacement, no merging or deduplication with the prior data). -/
theorem fetchSuccess_replaces_data (state : StoriesState) (payload : List Story) :
    storiesReducer state (.storiesFetchSuccess payload) =
      .ok { data := payload, isLoading := false, isError := false } := rfl

/-- C4: for every prior state, the stories reducer applied to a fetch-init
action returns a state with `isLoading = true`, `isError = false`, and the
`data` field exactly the prior state's `data`. -/
theorem fetchInit_sets_loading (state : StoriesState) :
    storiesReducer state .storiesFetchInit =
      .ok { data := state.data, isLoading := true, isError := false } := rfl

/-- C5: for every prior state, the stories reducer applied to a
fetch-failure action returns a state with `isLoading = false`,
`isError = true`, and the `data` field exactly the prior state's `data`. -/
theorem fetchFailure_sets_error (state : StoriesState) :
    storiesReducer state .storiesFetchFailure =
      .ok { data := state.data, isLoading := false, isError := true } := rfl

/-- C3: for every state, dispatching an action whose kind is none of the
recognized transition kinds makes the reducer signal an error rather than
return any state — in the final snapshot's reducer and likewise in the
earlier list-state snapshot's reducer. -/
theorem unknownAction_throws :
    (∀ (state : StoriesState) (ty : String),
      storiesReducer state (.unknownAction ty) = .error ()) ∧
    (∀ (state : List Story) (ty : String),
      V1.storiesReducer state (.unknownAction ty) = .error ()) :=
  ⟨fun _ _ => rfl, fun _ _ => rfl⟩

/-- C8: on the two seed stories and the search term `"Redux"`, the
client-side title filter returns exactly the `objectID 1` `"Redux"` entry
and nothing else. -/
theorem searchedStories_redux_seed :
    searchedStories initialStories "Redux" = [reduxStory] := by decide

/-- C10: when the persisted value under the storage key is the empty
string, the state rehydrated by `useStorageState` is the supplied default
initial state (`"React"`), not the stored empty string; a stored string is
used exactly when it is non-empty. -/
theorem useStorageState_empty_string_default :
    (∀ initialState : String, useStorageStateInit (some "") initialState = initialState) ∧
    (∀ (stored initialState : String), stored ≠ "" →
      useStorageStateInit (some stored) initialState = stored) ∧
    useStorageStateInit (some "") "React" = "React" := by
  refine ⟨fun _ => rfl, ?_, rfl⟩
  intro stored initialState h
  simp [useStorageStateInit, h]

/-- Witness for C10 at the concrete stored string `"hello"`. -/
theorem useStorageState_empty_string_default_witness :
    ("hello" : String) ≠ "" ∧ useStorageStateInit (some "hello") "React" = "hello" :=
  ⟨by decide, useStorageState_empty_string_default.2.1 "hello" "React" (by decide)⟩

/-- C2: for every state and item, the REMOVE_STORY transition keeps
`isLoading` and `isError` unchanged and keeps exactly the entries whose
`objectID` differs from the item's; in particular, removing the
`objectID 0` seed story from the two-item seed list yields the one-element
list containing only the `objectID 1` entry, both in the final snapshot's
reducer and in the earlier list-state reducer. -/
theorem removeStory_filters_by_objectID (s : StoriesState) (item : Story)
    (s' : StoriesState)
    (h : storiesReducer s (.removeStory item) = .ok s') :
    s'.isLoading = s.isLoading ∧ s'.isError = s.isError ∧
    (∀ st : Story, st ∈ s'.data ↔ st ∈ s.data ∧ st.objectID ≠ item.objectID) ∧
    storiesReducer { data := initialStories, isLoading := false, isError := false }
        (.removeStory reactStory) =
      .ok { data := [reduxStory], isLoading := false, isError := false } ∧
    V1.storiesReducer initialStories (.removeStory reactStory) = .ok [reduxStory] := by
  have hs : s' =
      { s with
        data := s.data.filter (fun story => item.objectID != story.objectID) } := by
    simpa [storiesReducer] using h.symm
  subst hs
  refine ⟨rfl, rfl, ?_, rfl, rfl⟩
  intro st
  simp only [List.mem_filter, bne_iff_ne]
  constructor
  · rintro ⟨h1, h2⟩; exact ⟨h1, fun e => h2 e.symm⟩
  · rintro ⟨h1, h2⟩; exact ⟨h1, fun e => h2 e.symm⟩

/-- Witness for C2 on the seed list: removing the `objectID 0` story. -/
theorem removeStory_filters_by_objectID_witness :
    storiesReducer { data := initialStories, isLoading := false, isError := false }
        (.removeStory reactStory) =
      .ok { data := [reduxStory], isLoading := false, isError := false } ∧
    (∀ st : Story, st ∈ ([reduxStory] : List Story) ↔
      st ∈ initialStories ∧ st.objectID ≠ reactStory.objectID) :=
  ⟨rfl, (removeStory_filters_by_objectID
      { data := initialStories, isLoading := false, isError := false } reactStory
      { data := [reduxStory], isLoading := false, isError := false } rfl).2.2.1⟩

/-- Lowering the search term determines the filtered result. -/
lemma searchedStories_congr (stories : List Story) (t₁ t₂ : String)
    (h : toLowerCase t₁ = toLowerCase t₂) :
    searchedStories stories t₁ = searchedStories stories t₂ := by
  simp only [searchedStories, h]

/-- C7: the client-side search filter is case-insensitive: filtering by
`"react"` and by `"REACT"` yield identical result lists on every story
list, and in general the filtered result is invariant under changing the
letter case of the search term. -/
theorem searchedStories_case_insensitive :
    (∀ stories : List Story,
      searchedStories stories "react" = searchedStories stories "REACT") ∧
    (∀ (stories : List Story) (t₁ t₂ : String), caseVariant t₁ t₂ →
      searchedStories stories t₁ = searchedStories stories t₂) :=
  ⟨fun stories => searchedStories_congr stories "react" "REACT" rfl,
    fun stories t₁ t₂ h => searchedStories_congr stories t₁ t₂ h⟩

/-- Witness for C7 at the case variants `"Redux"` and `"rEdUx"` on the
seed list. -/
theorem searchedStories_case_insensitive_witness :
    caseVariant "Redux" "rEdUx" ∧
      searchedStories initialStories "Redux" =
        searchedStories initialStories "rEdUx" :=
  ⟨rfl, searchedStories_case_insensitive.2 initialStories "Redux" "rEdUx" rfl⟩

/-- C9: REMOVE_STORY is idempotent — dispatching it twice with the same
item equals dispatching it once — and removing an item whose `objectID`
occurs nowhere in `data` returns the prior state exactly. -/
theorem removeStory_idempotent (s : StoriesState) (item : Story) :
    (storiesReducer s (.removeStory item)).bind
        (fun s₂ => storiesReducer s₂ (.removeStory item)) =
      storiesReducer s (.removeStory item) ∧
    ((∀ st ∈ s.data, st.objectID ≠ item.objectID) →
      storiesReducer s (.removeStory item) = .ok s) := by
  constructor
  · simp only [storiesReducer, Except.bind, filter_self_filter]
  · intro h
    have hd : s.data.filter (fun story => item.objectID != story.objectID) = s.data :=
      List.filter_eq_self.mpr (fun st hst => by
        simpa only [bne_iff_ne] using (h st hst).symm)
    show Except.ok
        { s with
          data := s.data.filter (fun story => item.objectID != story.objectID) } =
      Except.ok s
    rw [hd]

/-- Witness for C9: removing the absent `objectID 0` story from a state
holding only the `objectID 1` story returns the state unchanged. -/
theorem removeStory_idempotent_witness :
    (∀ st ∈ ([reduxStory] : List Story), st.objectID ≠ reactStory.objectID) ∧
    storiesReducer { data := [reduxStory], isLoading := false, isError := false }
        (.removeStory reactStory) =
      .ok { data := [reduxStory], isLoading := false, isError := false } :=
  ⟨by decide, (removeStory_idempotent
      { data := [reduxStory], isLoading := false, isError := false }
      reactStory).2 (by decide)⟩

/-- C6 (counterexample to the unqualified claim): a fetch-success payload
carrying two stories with the same `objectID 5`, followed by a
REMOVE_STORY of an `objectID 7` item, leaves the duplicate pair in `data`:
immediately after the removal step the data still contains two entries
with the same `objectID`. -/
theorem removeStep_nodup_counterexample :
    runActions initialStoriesState
        [.storiesFetchSuccess [storyDupA, storyDupB], .removeStory storyOther] =
      .ok { data := [storyDupA, storyDupB], isLoading := false, isError := false } ∧
    ¬ (([storyDupA, storyDupB] : List Story).map Story.objectID).Nodup :=
  ⟨rfl, by decide⟩

/-- C6 (amended): for every action sequence from the empty initial state in
which each fetch-success payload has pairwise distinct `objectID`s,
immediately after any REMOVE_STORY(item) step the resulting `data`
contains no entry with the item's `objectID` and no two entries with the
same `objectID`. -/
theorem removeStep_clears_id_and_nodup (acts : List StoriesAction) (item : Story)
    (s : StoriesState)
    (hg : ∀ a ∈ acts, goodPayloads a = true)
    (hrun : runActions initialStoriesState (acts ++ [.removeStory item]) = .ok s) :
    (∀ st ∈ s.data, st.objectID ≠ item.objectID) ∧
    (s.data.map Story.objectID).Nodup := by
  obtain ⟨m, hm, hlast⟩ :=
    runActions_append acts [.removeStory item] initialStoriesState s hrun
  have hs : s =
      { m with
        data := m.data.filter (fun story => item.objectID != story.objectID) } := by
    simpa [runActions, storiesReducer] using hlast.symm
  have hmnodup : (m.data.map Story.objectID).Nodup :=
    runActions_keysNodup acts initialStoriesState m hg hm
      (by simp [initialStoriesState])
  subst hs
  constructor
  · intro st hst
    have hp := (List.mem_filter.mp hst).2
    simp only [bne_iff_ne] at hp
    exact fun e => hp e.symm
  · exact keysNodup_filter _ _ hmnodup

/-- Witness for C6 (amended): fetch the duplicate-free seed list, then
remove the `objectID 0` story. -/
theorem removeStep_clears_id_and_nodup_witness :
    (∀ a ∈ [StoriesAction.storiesFetchSuccess initialStories], goodPayloads a = true) ∧
    (∀ st ∈ ([reduxStory] : List Story), st.objectID ≠ reactStory.objectID) ∧
    (([reduxStory] : List Story).map Story.objectID).Nodup := by
  refine ⟨by decide, ?_⟩
  exact removeStep_clears_id_and_nodup [.storiesFetchSuccess initialStories]
    reactStory { data := [reduxStory], isLoading := false, isError := false }
    (by decide) rfl
